import Mathlib

/-!
Shallow embedding of `src/logic_number_validator/validate_logic_number.py`
(the canonical validation engine of the `tefway/ferramentas` repository),
together with theorems settling the specification claims about it.

Modelling conventions:
* Python strings are Lean `String`s (a `List Char`).  The engine only ever
  uses `str.lower()`, `str.upper()`, `str.zfill(15)`, truthiness of strings
  and regular-expression matching.  The `\d` class of a Python 3 `str`
  pattern (no `re.ASCII` flag) matches every Unicode decimal digit
  (general category Nd), not only the ASCII digits; it is embedded below
  by the full codepoint-range table of that category (`pyDigit`).  The
  `[a-zA-Z0-9]` class is ASCII by definition.  `str.lower()`/`str.upper()`
  are embedded on the ASCII fragment; the engine only ever compares the
  lowered string against the ASCII literals of its acquirer table and
  uppercases those same literals for messages, so the comparison outcomes
  agree with Python on every input.
* A Python dict input with the three keys is `InputRecord`; a key that is
  absent maps to `none` (Python `data.get` returning `None`).
* `validate_logic_number` in the source can fall off the end of the
  function (the first dispatch group has no `else` branch), in which case
  Python returns `None`; the embedding returns `Option Outcome`, with
  `none` modelling that fall-through.
* Python `re.match(p, s)` anchors at the start; the `$` anchor accepts the
  end of the string or the position just before a trailing newline.  The
  mini matcher `reMatch` below implements exactly this for the fixed-shape
  patterns used by the source (literal characters followed by a counted
  character class).
-/

/-- One item of the fixed-shape regular expressions used by the source:
a literal character, or a character class repeated a fixed number of times. -/
inductive RItem where
  | lit (c : Char)
  | cls (p : Char → Bool) (n : Nat)

/-- Consume exactly `n` characters satisfying `p`, returning the rest. -/
def consumeCls (p : Char → Bool) : Nat → List Char → Option (List Char)
  | 0, cs => some cs
  | _ + 1, [] => none
  | n + 1, c :: cs => if p c then consumeCls p n cs else none

/-- Consume a pattern item list from the front of a character list. -/
def consume : List RItem → List Char → Option (List Char)
  | [], cs => some cs
  | RItem.lit _ :: _, [] => none
  | RItem.lit a :: its, c :: cs => if c = a then consume its cs else none
  | RItem.cls p n :: its, cs =>
      match consumeCls p n cs with
      | some cs2 => consume its cs2
      | none => none

/-- Python `re` end anchor `$` (no MULTILINE): the remainder after the body
of the pattern must be empty, or a single trailing newline. -/
def atDollar (rest : List Char) : Bool := rest == [] || rest == ['\n']

/-- Python `re.match(r"^...$", s)` for the fixed-shape patterns above:
match the items from position 0, then require the `$` condition. -/
def reMatch (pat : List RItem) (s : String) : Bool :=
  match consume pat s.data with
  | some rest => atDollar rest
  | none => false

/-- The codepoint ranges (inclusive) of the Unicode decimal digits,
general category Nd: exactly the characters matched by `\d` in a CPython
`str` regular expression with default flags (Unicode 14.0, as shipped
with CPython 3.11).  The first range is the ASCII digits. -/
def pyDigitRanges : List (Nat × Nat) :=
  [(48, 57), (1632, 1641), (1776, 1785), (1984, 1993), (2406, 2415), (2534, 2543),
   (2662, 2671), (2790, 2799), (2918, 2927), (3046, 3055), (3174, 3183), (3302, 3311),
   (3430, 3439), (3558, 3567), (3664, 3673), (3792, 3801), (3872, 3881), (4160, 4169),
   (4240, 4249), (6112, 6121), (6160, 6169), (6470, 6479), (6608, 6617), (6784, 6793),
   (6800, 6809), (6992, 7001), (7088, 7097), (7232, 7241), (7248, 7257), (42528, 42537),
   (43216, 43225), (43264, 43273), (43472, 43481), (43504, 43513), (43600, 43609),
   (44016, 44025), (65296, 65305), (66720, 66729), (68912, 68921), (69734, 69743),
   (69872, 69881), (69942, 69951), (70096, 70105), (70384, 70393), (70736, 70745),
   (70864, 70873), (71248, 71257), (71360, 71369), (71472, 71481), (71904, 71913),
   (72016, 72025), (72784, 72793), (73040, 73049), (73120, 73129), (92768, 92777),
   (92864, 92873), (93008, 93017), (120782, 120831), (123200, 123209), (123632, 123641),
   (125264, 125273), (130032, 130041)]

/-- Python's `\d` character class for `str` patterns: a Unicode decimal
digit (category Nd).  ASCII digits are the first range of the table. -/
def pyDigit (c : Char) : Bool :=
  pyDigitRanges.any (fun r => r.1 ≤ c.toNat && c.toNat ≤ r.2)

/-- Source pattern `^\d{15}$` (`\d` is the Unicode decimal digit class). -/
def patD15 : List RItem := [RItem.cls pyDigit 15]

/-- Source pattern `^TF[a-zA-Z0-9]{8}$`. -/
def patTFcode : List RItem := [RItem.lit 'T', RItem.lit 'F', RItem.cls Char.isAlphanum 8]

/-- Source pattern `^4\d{7}$` (cielo, canonical engine variant). -/
def patCielo : List RItem := [RItem.lit '4', RItem.cls pyDigit 7]

/-- Source pattern `^[a-zA-Z0-9]{32}$` (stone logic number). -/
def patStone : List RItem := [RItem.cls Char.isAlphanum 32]

/-- Source pattern `^\d{9}$` (stone code). -/
def patD9 : List RItem := [RItem.cls pyDigit 9]

/-- Source pattern `^04\d{13}$` (vero logic number). -/
def patVero : List RItem := [RItem.lit '0', RItem.lit '4', RItem.cls pyDigit 13]

/-- Source pattern `^\d{11}$` (vero code). -/
def patD11 : List RItem := [RItem.cls pyDigit 11]

/-- Python `str.lower()` on the ASCII fragment. -/
def pyLower (s : String) : String := ⟨s.data.map Char.toLower⟩

/-- Python `str.upper()` on the ASCII fragment. -/
def pyUpper (s : String) : String := ⟨s.data.map Char.toUpper⟩

/-- Python truthiness test `not x` for an optional string field:
true when the key is absent (`None`) or the string is empty. -/
def pyFalsy : Option String → Bool
  | none => true
  | some s => s == ""

/-- Python `str.zfill(width)`: if the string already has at least `width`
characters it is returned unchanged; otherwise it is filled with zeros on
the left, except that a leading `+` or `-` sign stays in front and the
zeros are inserted after it. -/
def zfill (s : String) (width : Nat) : String :=
  if width ≤ s.length then s
  else
    match s.data with
    | [] => ⟨List.replicate width '0'⟩
    | c :: rest =>
      if c = '+' ∨ c = '-' then ⟨c :: (List.replicate (width - s.length) '0' ++ rest)⟩
      else ⟨List.replicate (width - s.length) '0' ++ s.data⟩

/-- The input record: the Python dict with keys
`adquirente`, `logico`, `codigo` (each possibly absent). -/
structure InputRecord where
  adquirente : Option String
  logico : Option String
  codigo : Option String

/-- Result of `handle_data`: either the validated triple
(lowercased acquirer, logic number, code), or the error string it returns. -/
inductive HandleResult where
  | ok (adquirence logic_number code : String)
  | err (msg : String)
deriving DecidableEq

/-- The outcome dictionary of the engine: exactly one populated tag. -/
inductive Outcome where
  | success (msg : String)
  | failure (msg : String)
  | error (msg : String)
deriving DecidableEq

/-- The `valid_adquirences` set literal of `handle_data` (source lines 45-50). -/
def valid_adquirences : List String :=
  ["bin", "getnetlac", "safra", "sipag", "stone", "vero", "adiq", "bigcard", "biz",
   "brasil card", "cabal", "cardse", "carto", "comprocard", "convcard", "credishop",
   "ctf frota", "fitcard", "globalpayments", "marketpay", "mettacard", "orgcard",
   "portalcard", "rede", "resomaq", "softnex", "telenet", "valecard", "valeshop", "cielo"]

/-- `handle_data` (source lines 16-55): presence checks in order
acquirer, logic number, code (the raised `ErrInvalidParam` is caught
locally and stringified, so the net effect is returning the message);
then lowercase the acquirer and check membership in `valid_adquirences`. -/
def handle_data (data : InputRecord) : HandleResult :=
  if pyFalsy data.adquirente then HandleResult.err "Authorizer not provided."
  else if pyFalsy data.logico then HandleResult.err "Logical number not provided."
  else if pyFalsy data.codigo then HandleResult.err "Code not provided"
  else
    if valid_adquirences.contains (pyLower (data.adquirente.getD "")) then
      HandleResult.ok (pyLower (data.adquirente.getD ""))
        (data.logico.getD "") (data.codigo.getD "")
    else HandleResult.err "unsupported adquirence type"

/-- The acquirers whose logic number `process_data` zero-fills (source line 68). -/
def padding_adquirences : List String :=
  ["bin", "fitcard", "getnetlac", "policard", "safra", "sipag", "siscred", "softnex", "valeshop"]

/-- `process_data` (source lines 57-71). -/
def process_data (adquirence logic_number : String) : String :=
  if padding_adquirences.contains adquirence then zfill logic_number 15
  else logic_number

/-- The first dispatch group of `validate_logic_number` (source line 104). -/
def group_fifteen : List String :=
  ["adiq", "bigcard", "biz", "brasil card", "cabal", "cardse", "carto", "comprocard",
   "convcard", "credishop", "ctf frota", "fitcard", "globalpayments", "marketpay",
   "mettacard", "orgcard", "portalcard", "rede", "resomaq", "softnex", "telenet",
   "valecard", "valeshop"]

/-- The second dispatch group of `validate_logic_number` (source line 108). -/
def group_tf : List String := ["bin", "getnetlac", "safra", "sipag"]

/-- `validate_logic_number` (source lines 73-137) for dict inputs.  The
first dispatch group has no `else`: on mismatch Python falls off the end
of the function and returns `None`, modelled by `Option.none` here. -/
def validate_logic_number (data : InputRecord) : Option Outcome :=
  match handle_data data with
  | HandleResult.err msg => some (Outcome.error msg)
  | HandleResult.ok adquirence logic_number0 code =>
    let logic_number := process_data adquirence logic_number0
    if group_fifteen.contains adquirence then
      if reMatch patD15 logic_number then
        some (Outcome.success (adquirence ++ " processed with logic number " ++ logic_number))
      else none
    else if group_tf.contains adquirence then
      if reMatch patD15 logic_number && reMatch patTFcode code then
        some (Outcome.success (adquirence ++ " processed with logic number " ++ logic_number ++ " and code " ++ code))
      else some (Outcome.failure (pyUpper adquirence ++ " does not match with the pattern"))
    else if adquirence == "cielo" then
      if reMatch patCielo logic_number then
        some (Outcome.success (adquirence ++ " processed with logic number " ++ logic_number))
      else some (Outcome.failure (pyUpper adquirence ++ " does not match with the pattern"))
    else if adquirence == "stone" then
      if reMatch patStone logic_number && reMatch patD9 code then
        some (Outcome.success (adquirence ++ " processed with logic number " ++ logic_number ++ " and code " ++ code))
      else some (Outcome.failure (pyUpper adquirence ++ " does not match with the pattern"))
    else if adquirence == "vero" then
      if reMatch patVero logic_number && reMatch patD11 code then
        some (Outcome.success (adquirence ++ " processed with logic number " ++ logic_number ++ " and code " ++ code))
      else some (Outcome.failure (pyUpper adquirence ++ " does not match with the pattern"))
    else some (Outcome.error "Unsupported adquirence type")

/-!  Spec-side declarative definitions, used to state the claims.
These follow the specification's words (full-string shapes), to be compared
with the behaviour of the source-derived definitions above. -/

/-- The plain left-pad operation the specification describes for the
padding subset: prepend zeros until the string has 15 characters. -/
def specLeftPad (s : String) : String :=
  ⟨List.replicate (15 - s.length) '0' ++ s.data⟩

/-- Declarative full-string shape: the string is exactly the literal
characters `pre` followed by `n` characters of the class `p`. -/
def exactShape (pre : List Char) (p : Char → Bool) (n : Nat) (s : String) : Prop :=
  ∃ mid : List Char, s.data = pre ++ mid ∧ mid.length = n ∧ mid.all p = true

/-- Declarative shape with a single trailing newline after the body. -/
def exactShapeNl (pre : List Char) (p : Char → Bool) (n : Nat) (s : String) : Prop :=
  ∃ mid : List Char, s.data = pre ++ mid ++ ['\n'] ∧ mid.length = n ∧ mid.all p = true

/-- The cielo shape exactly as the claim words it: the digit `4` followed
by exactly 7 or 8 further ASCII digits. -/
def cieloClaimShape (s : String) : Bool :=
  match s.data with
  | '4' :: rest => (rest.length == 7 || rest.length == 8) && rest.all Char.isDigit
  | _ => false

/-- Helper for reasoning about literal runs: drop the exact characters
`pre` from the front of a list, or fail. -/
def dropLits : List Char → List Char → Option (List Char)
  | [], cs => some cs
  | _ :: _, [] => none
  | a :: as, c :: cs => if c = a then dropLits as cs else none

/-!  Characterization of the mini regex matcher. -/

theorem atDollar_eq_true (rest : List Char) :
    atDollar rest = true ↔ rest = [] ∨ rest = ['\n'] := by
  simp [atDollar]

theorem dropLits_eq_some :
    ∀ (pre cs rest : List Char), dropLits pre cs = some rest ↔ cs = pre ++ rest := by
  intro pre
  induction pre with
  | nil => intro cs rest; simp [dropLits, eq_comm]
  | cons a as ih =>
    intro cs rest
    cases cs with
    | nil => simp [dropLits]
    | cons c cs' =>
      by_cases hca : c = a
      · subst hca; simp [dropLits, ih]
      · simp [dropLits, hca]

theorem consumeCls_eq_some (p : Char → Bool) :
    ∀ (n : Nat) (cs rest : List Char),
      consumeCls p n cs = some rest ↔
        ∃ mid : List Char, cs = mid ++ rest ∧ mid.length = n ∧ mid.all p = true := by
  intro n
  induction n with
  | zero =>
    intro cs rest
    constructor
    · intro h
      simp [consumeCls] at h
      exact ⟨[], by simp [h], rfl, rfl⟩
    · rintro ⟨mid, h1, h2, h3⟩
      rw [List.length_eq_zero] at h2
      subst h2
      simpa [consumeCls] using h1
  | succ n ih =>
    intro cs rest
    cases cs with
    | nil =>
      simp only [consumeCls]
      constructor
      · intro h; cases h
      · rintro ⟨mid, h1, h2, h3⟩
        have : mid = [] := (List.append_eq_nil.mp h1.symm).1
        subst this
        simp at h2
    | cons c cs' =>
      by_cases hp : p c
      · rw [show consumeCls p (n + 1) (c :: cs') = consumeCls p n cs' by simp [consumeCls, hp]]
        rw [ih cs' rest]
        constructor
        · rintro ⟨mid, h1, h2, h3⟩
          exact ⟨c :: mid, by simp [h1], by simp [h2], by simp [h3, hp]⟩
        · rintro ⟨mid, h1, h2, h3⟩
          cases mid with
          | nil => simp at h2
          | cons m0 mid' =>
            rw [List.cons_append] at h1
            injection h1 with h1a h1b
            subst h1a
            simp only [List.all_cons, Bool.and_eq_true] at h3
            exact ⟨mid', h1b, by simpa using h2, h3.2⟩
      · rw [show consumeCls p (n + 1) (c :: cs') = none by simp [consumeCls, hp]]
        constructor
        · intro h; cases h
        · rintro ⟨mid, h1, h2, h3⟩
          cases mid with
          | nil => simp at h2
          | cons m0 mid' =>
            rw [List.cons_append] at h1
            injection h1 with h1a h1b
            subst h1a
            simp only [List.all_cons, Bool.and_eq_true] at h3
            exact absurd h3.1 (by simp [hp])

theorem consume_lits (pre : List Char) (its : List RItem) :
    ∀ cs : List Char,
      consume (pre.map RItem.lit ++ its) cs =
        match dropLits pre cs with
        | some cs' => consume its cs'
        | none => none := by
  induction pre with
  | nil => intro cs; simp [dropLits]
  | cons a as ih =>
    intro cs
    cases cs with
    | nil => simp [consume, dropLits]
    | cons c cs' =>
      by_cases hca : c = a
      · subst hca
        simp only [List.map_cons, List.cons_append]
        rw [show consume (RItem.lit c :: (as.map RItem.lit ++ its)) (c :: cs') =
              consume (as.map RItem.lit ++ its) cs' by simp [consume]]
        rw [ih cs']
        simp [dropLits]
      · simp only [List.map_cons, List.cons_append]
        rw [show consume (RItem.lit a :: (as.map RItem.lit ++ its)) (c :: cs') = none by
              simp [consume, hca]]
        simp [dropLits, hca]

theorem consume_single_cls (p : Char → Bool) (n : Nat) (cs : List Char) :
    consume [RItem.cls p n] cs = consumeCls p n cs := by
  cases h : consumeCls p n cs <;> simp [consume, h]

theorem reMatch_litCls (pre : List Char) (p : Char → Bool) (n : Nat) (s : String) :
    reMatch (pre.map RItem.lit ++ [RItem.cls p n]) s = true ↔
      exactShape pre p n s ∨ exactShapeNl pre p n s := by
  unfold reMatch
  rw [consume_lits]
  cases hd : dropLits pre s.data with
  | none =>
    simp only []
    constructor
    · intro h; cases h
    · rintro (⟨mid, h1, h2, h3⟩ | ⟨mid, h1, h2, h3⟩)
      · rw [show dropLits pre s.data = some mid from (dropLits_eq_some pre s.data mid).mpr h1] at hd
        cases hd
      · rw [show dropLits pre s.data = some (mid ++ ['\n']) from
            (dropLits_eq_some pre s.data (mid ++ ['\n'])).mpr (by rw [h1, List.append_assoc])] at hd
        cases hd
  | some cs' =>
    have hsd : s.data = pre ++ cs' := (dropLits_eq_some pre s.data cs').mp hd
    simp only [consume_single_cls]
    cases hc : consumeCls p n cs' with
    | none =>
      simp only []
      constructor
      · intro h; cases h
      · rintro (⟨mid, h1, h2, h3⟩ | ⟨mid, h1, h2, h3⟩)
        · have hmid : cs' = mid := by
            have := hsd.symm.trans h1
            exact List.append_cancel_left this
          rw [show consumeCls p n cs' = some [] from
              (consumeCls_eq_some p n cs' []).mpr ⟨mid, by simp [hmid], h2, h3⟩] at hc
          cases hc
        · have hmid : cs' = mid ++ ['\n'] := by
            have := hsd.symm.trans h1
            rw [List.append_assoc] at this
            exact List.append_cancel_left this
          rw [show consumeCls p n cs' = some ['\n'] from
              (consumeCls_eq_some p n cs' ['\n']).mpr ⟨mid, hmid, h2, h3⟩] at hc
          cases hc
    | some rest =>
      simp only [atDollar_eq_true]
      obtain ⟨mid, hm1, hm2, hm3⟩ := (consumeCls_eq_some p n cs' rest).mp hc
      constructor
      · rintro (h | h)
        · subst h
          exact Or.inl ⟨mid, by rw [hsd, hm1, List.append_nil], hm2, hm3⟩
        · subst h
          exact Or.inr ⟨mid, by rw [hsd, hm1, List.append_assoc], hm2, hm3⟩
      · rintro (⟨mid2, h1, h2, h3⟩ | ⟨mid2, h1, h2, h3⟩)
        · have he : mid ++ rest = mid2 := by
            have := hsd.symm.trans h1
            rw [hm1] at this
            exact List.append_cancel_left this
          have : rest.length = 0 := by
            have := congrArg List.length he
            simp [hm2] at this
            omega
          exact Or.inl (List.length_eq_zero.mp this)
        · have he : mid ++ rest = mid2 ++ ['\n'] := by
            have := hsd.symm.trans h1
            rw [hm1, List.append_assoc] at this
            exact List.append_cancel_left this
          have hlen : mid.length = mid2.length := by rw [hm2, h2]
          exact Or.inr (List.append_inj he hlen).2

/-!  Helper lemmas about the embedded string operations and the engine. -/

theorem zfill_of_le (t : String) (h : 15 ≤ t.length) : zfill t 15 = t := by
  unfold zfill
  rw [if_pos h]

theorem zfill_nil_eq : zfill ⟨[]⟩ 15 = ⟨List.replicate 15 '0'⟩ := by
  unfold zfill
  rw [if_neg (by show ¬(15 ≤ (0 : Nat)); omega)]

theorem zfill_cons_eq_of_lt (c : Char) (rest : List Char) (h : rest.length + 1 < 15) :
    zfill ⟨c :: rest⟩ 15 =
      if c = '+' ∨ c = '-' then ⟨c :: (List.replicate (15 - (rest.length + 1)) '0' ++ rest)⟩
      else ⟨List.replicate (15 - (rest.length + 1)) '0' ++ (c :: rest)⟩ := by
  unfold zfill
  rw [if_neg (by show ¬(15 ≤ rest.length + 1); omega)]
  rfl

theorem zfill_length_of_lt (s : String) (h : s.length < 15) : (zfill s 15).length = 15 := by
  cases s with
  | mk d =>
    cases d with
    | nil =>
      rw [zfill_nil_eq]
      show (List.replicate 15 '0').length = 15
      simp
    | cons c rest =>
      have hlen : (String.mk (c :: rest)).length = rest.length + 1 := rfl
      rw [hlen] at h
      rw [zfill_cons_eq_of_lt c rest h]
      by_cases hc : c = '+' ∨ c = '-'
      · rw [if_pos hc]
        show (c :: (List.replicate (15 - (rest.length + 1)) '0' ++ rest)).length = 15
        simp only [List.length_cons, List.length_append, List.length_replicate]
        omega
      · rw [if_neg hc]
        show (List.replicate (15 - (rest.length + 1)) '0' ++ (c :: rest)).length = 15
        simp only [List.length_cons, List.length_append, List.length_replicate]
        omega

theorem zfill15_idem (s : String) : zfill (zfill s 15) 15 = zfill s 15 := by
  by_cases h : 15 ≤ s.length
  · rw [zfill_of_le s h]
    exact zfill_of_le s h
  · exact zfill_of_le _ (by rw [zfill_length_of_lt s (by omega)])

theorem validate_err (data : InputRecord) (msg : String)
    (h : handle_data data = HandleResult.err msg) :
    validate_logic_number data = some (Outcome.error msg) := by
  unfold validate_logic_number
  rw [h]

theorem validate_ok (data : InputRecord) (a l c : String)
    (h : handle_data data = HandleResult.ok a l c) :
    validate_logic_number data =
      (if group_fifteen.contains a then
        if reMatch patD15 (process_data a l) then
          some (Outcome.success (a ++ " processed with logic number " ++ process_data a l))
        else none
      else if group_tf.contains a then
        if reMatch patD15 (process_data a l) && reMatch patTFcode c then
          some (Outcome.success (a ++ " processed with logic number " ++ process_data a l ++ " and code " ++ c))
        else some (Outcome.failure (pyUpper a ++ " does not match with the pattern"))
      else if a == "cielo" then
        if reMatch patCielo (process_data a l) then
          some (Outcome.success (a ++ " processed with logic number " ++ process_data a l))
        else some (Outcome.failure (pyUpper a ++ " does not match with the pattern"))
      else if a == "stone" then
        if reMatch patStone (process_data a l) && reMatch patD9 c then
          some (Outcome.success (a ++ " processed with logic number " ++ process_data a l ++ " and code " ++ c))
        else some (Outcome.failure (pyUpper a ++ " does not match with the pattern"))
      else if a == "vero" then
        if reMatch patVero (process_data a l) && reMatch patD11 c then
          some (Outcome.success (a ++ " processed with logic number " ++ process_data a l ++ " and code " ++ c))
        else some (Outcome.failure (pyUpper a ++ " does not match with the pattern"))
      else some (Outcome.error "Unsupported adquirence type")) := by
  unfold validate_logic_number
  rw [h]

theorem handle_data_ok (a l c : String) (ha : a ≠ "") (hl : l ≠ "") (hc : c ≠ "")
    (hm : valid_adquirences.contains (pyLower a) = true) :
    handle_data ⟨some a, some l, some c⟩ = HandleResult.ok (pyLower a) l c := by
  unfold handle_data
  simp [pyFalsy, ha, hl, hc, hm]
  exact List.mem_of_elem_eq_true hm

/-!  Evaluation lemmas for the dispatch stage, used by several claims. -/

theorem validate_tf_eval (a l c : String)
    (ha : a = "bin" ∨ a = "getnetlac" ∨ a = "safra" ∨ a = "sipag")
    (hl : l ≠ "") (hc : c ≠ "") :
    validate_logic_number ⟨some a, some l, some c⟩ =
      if reMatch patD15 (process_data a l) && reMatch patTFcode c then
        some (Outcome.success (a ++ " processed with logic number " ++ process_data a l ++ " and code " ++ c))
      else some (Outcome.failure (pyUpper a ++ " does not match with the pattern")) := by
  have ha' : a ≠ "" := by rcases ha with h | h | h | h <;> (subst h; decide)
  have hlow : pyLower a = a := by rcases ha with h | h | h | h <;> (subst h; decide)
  have hmem : valid_adquirences.contains (pyLower a) = true := by
    rw [hlow]
    rcases ha with h | h | h | h <;> (subst h; decide)
  have hd := handle_data_ok a l c ha' hl hc hmem
  rw [hlow] at hd
  rw [validate_ok _ a l c hd]
  have hg15 : group_fifteen.contains a = false := by
    rcases ha with h | h | h | h <;> (subst h; decide)
  have hgtf : group_tf.contains a = true := by
    rcases ha with h | h | h | h <;> (subst h; decide)
  rw [hg15, hgtf, if_neg (by decide : ¬(false = true)), if_pos (rfl : true = true)]

theorem validate_vero_eval (l c : String) (hl : l ≠ "") (hc : c ≠ "") :
    validate_logic_number ⟨some "vero", some l, some c⟩ =
      if reMatch patVero l && reMatch patD11 c then
        some (Outcome.success ("vero processed with logic number " ++ l ++ " and code " ++ c))
      else some (Outcome.failure "VERO does not match with the pattern") := by
  have hd := handle_data_ok "vero" l c (by decide) hl hc (by decide)
  rw [(by decide : pyLower "vero" = "vero")] at hd
  rw [validate_ok _ "vero" l c hd]
  rw [(by decide : group_fifteen.contains "vero" = false),
      (by decide : group_tf.contains "vero" = false),
      (by decide : ("vero" == "cielo") = false),
      (by decide : ("vero" == "stone") = false),
      (by decide : ("vero" == "vero") = true)]
  rw [if_neg (by decide : ¬(false = true)), if_neg (by decide : ¬(false = true)),
      if_neg (by decide : ¬(false = true)), if_neg (by decide : ¬(false = true)),
      if_pos (rfl : true = true)]
  rw [(by rfl : process_data "vero" l = l),
      (by decide : ("vero" ++ " processed with logic number " : String) = "vero processed with logic number "),
      (by decide : pyUpper "vero" ++ " does not match with the pattern" = "VERO does not match with the pattern")]

theorem validate_cielo_eval (l c : String) (hl : l ≠ "") (hc : c ≠ "") :
    validate_logic_number ⟨some "cielo", some l, some c⟩ =
      if reMatch patCielo l then
        some (Outcome.success ("cielo processed with logic number " ++ l))
      else some (Outcome.failure "CIELO does not match with the pattern") := by
  have hd := handle_data_ok "cielo" l c (by decide) hl hc (by decide)
  rw [(by decide : pyLower "cielo" = "cielo")] at hd
  rw [validate_ok _ "cielo" l c hd]
  rw [(by decide : group_fifteen.contains "cielo" = false),
      (by decide : group_tf.contains "cielo" = false),
      (by decide : ("cielo" == "cielo") = true)]
  rw [if_neg (by decide : ¬(false = true)), if_neg (by decide : ¬(false = true)),
      if_pos (rfl : true = true)]
  rw [(by rfl : process_data "cielo" l = l),
      (by decide : ("cielo" ++ " processed with logic number " : String) = "cielo processed with logic number "),
      (by decide : pyUpper "cielo" ++ " does not match with the pattern" = "CIELO does not match with the pattern")]

/-!  The claims. -/

/-- C1: the claim says every input yields an Outcome with exactly one
populated tag, and the first dispatch group yields Failure when the
normalized logic number is not 15 digits.  The code instead falls off the
end of the function for that group (no `else` on the `if` at source line
105) and returns Python `None`: for acquirer `adiq` with a 3-character
logic number the engine produces no outcome dictionary at all.  This
contradicts the function's own docstring (which promises a dict with
Success, Failure or Error), so the claim is right and the code is wrong. -/
theorem c1_fallthrough_returns_none :
    validate_logic_number ⟨some "adiq", some "123", some "TF12345678"⟩ = none := by decide

/-- C2: presence checks run in the fixed order acquirer, logic number,
code, a field being missing when absent or empty; the first missing field
determines an Error outcome with exactly the messages
"Authorizer not provided.", "Logical number not provided.",
"Code not provided", and this happens for every record, before any
membership or pattern check can influence the result. -/
theorem c2_presence_order (data : InputRecord) :
    (pyFalsy data.adquirente = true →
      validate_logic_number data = some (Outcome.error "Authorizer not provided.")) ∧
    (pyFalsy data.adquirente = false → pyFalsy data.logico = true →
      validate_logic_number data = some (Outcome.error "Logical number not provided.")) ∧
    (pyFalsy data.adquirente = false → pyFalsy data.logico = false → pyFalsy data.codigo = true →
      validate_logic_number data = some (Outcome.error "Code not provided")) := by
  refine ⟨fun h1 => ?_, fun h1 h2 => ?_, fun h1 h2 h3 => ?_⟩
  · exact validate_err _ _ (by unfold handle_data; simp [h1])
  · exact validate_err _ _ (by unfold handle_data; simp [h1, h2])
  · exact validate_err _ _ (by unfold handle_data; simp [h1, h2, h3])

/-- C2 witness: the three presence errors at concrete records. -/
theorem c2_presence_order_witness :
    validate_logic_number ⟨none, some "1", some "2"⟩
        = some (Outcome.error "Authorizer not provided.") ∧
    validate_logic_number ⟨some "vero", none, some "2"⟩
        = some (Outcome.error "Logical number not provided.") ∧
    validate_logic_number ⟨some "vero", some "1", none⟩
        = some (Outcome.error "Code not provided") :=
  ⟨(c2_presence_order _).1 rfl, (c2_presence_order _).2.1 rfl rfl,
    (c2_presence_order _).2.2 rfl rfl rfl⟩

/-- C5 counterexample: for acquirer bin and logic number "-1", the code
does not prepend the zeros: Python zfill keeps the minus sign in front and
inserts the zeros after it, so the result differs from the plain left-pad
the claim describes. -/
theorem c5_counterexample :
    process_data "bin" "-1" = "-00000000000001" ∧
    process_data "bin" "-1" ≠ specLeftPad "-1" := ⟨by decide, by decide⟩

/-- C5 amended: for every acquirer in the padding subset, a logic number
of length below 15 that does not start with a plus or minus sign is
left-padded with zeros to exactly length 15; one that starts with a sign
keeps the sign in front with the zeros inserted after it (Python zfill);
length 15 or more is left unchanged (padding never truncates), the
operation is idempotent, and every other acquirer passes through
unchanged. -/
theorem c5_padding_amended :
    (∀ a l : String, padding_adquirences.contains a = true → 15 ≤ l.length →
        process_data a l = l) ∧
    (∀ a l : String, padding_adquirences.contains a = true → l.length < 15 →
        (∀ c0 ∈ l.data.head?, c0 ≠ '+' ∧ c0 ≠ '-') →
        process_data a l = specLeftPad l) ∧
    (∀ (a : String) (c0 : Char) (rest : List Char),
        padding_adquirences.contains a = true → rest.length + 1 < 15 → (c0 = '+' ∨ c0 = '-') →
        process_data a ⟨c0 :: rest⟩ = ⟨c0 :: (List.replicate (15 - (rest.length + 1)) '0' ++ rest)⟩) ∧
    (∀ a l : String, l.length ≤ (process_data a l).length) ∧
    (∀ a l : String, process_data a (process_data a l) = process_data a l) ∧
    (∀ a l : String, padding_adquirences.contains a = false → process_data a l = l) := by
  refine ⟨fun a l hpad h15 => ?_, fun a l hpad hlt hhead => ?_, fun a c0 rest hpad hlt hc0 => ?_,
    fun a l => ?_, fun a l => ?_, fun a l hpad => ?_⟩
  · unfold process_data
    rw [hpad, if_pos rfl, zfill_of_le l h15]
  · unfold process_data
    rw [hpad, if_pos rfl]
    cases l with
    | mk d =>
      cases d with
      | nil =>
        rw [zfill_nil_eq]
        unfold specLeftPad
        rfl
      | cons c0 rest =>
        have hlen : (String.mk (c0 :: rest)).length = rest.length + 1 := rfl
        rw [hlen] at hlt
        rw [zfill_cons_eq_of_lt c0 rest hlt]
        have h0 := hhead c0 (by rfl)
        rw [if_neg (by rintro (h | h) <;> simp [h] at h0)]
        unfold specLeftPad
        rfl
  · unfold process_data
    rw [hpad, if_pos rfl]
    rw [zfill_cons_eq_of_lt c0 rest hlt, if_pos hc0]
  · unfold process_data
    by_cases hpad : padding_adquirences.contains a = true
    · rw [hpad, if_pos rfl]
      by_cases h15 : 15 ≤ l.length
      · rw [zfill_of_le l h15]
      · rw [zfill_length_of_lt l (by omega)]
        omega
    · rw [if_neg (by simpa using hpad)]
  · by_cases hpad : padding_adquirences.contains a = true
    · unfold process_data
      rw [hpad, if_pos rfl, if_pos rfl]
      exact zfill15_idem l
    · unfold process_data
      rw [if_neg (by simpa using hpad), if_neg (by simpa using hpad)]
  · unfold process_data
    rw [hpad, if_neg (by decide)]

/-- C5 witness: bin pads "123456" by prepending zeros to 15 characters. -/
theorem c5_padding_witness :
    process_data "bin" "123456" = specLeftPad "123456"
      ∧ specLeftPad "123456" = "000000000123456" := by
  refine ⟨c5_padding_amended.2.1 "bin" "123456" (by decide) (by decide) ?_, by decide⟩
  intro c0 hc0
  have h1 : ("123456" : String).data.head? = some c0 := hc0
  rw [show ("123456" : String).data.head? = some '1' from rfl] at h1
  injection h1 with h2
  rw [← h2]
  exact ⟨by decide, by decide⟩

/-- C6 counterexample: the claimed "exactly when the padded logic number
is exactly 15 ASCII digits" fails in two ways.  For acquirer bin, the
logic number "123456789012345" followed by a newline (16 characters,
unchanged by padding) is accepted as Success, because the Python `$`
anchor also matches just before a trailing newline; and a logic number of
15 Arabic-Indic digits (U+0660..U+0669, not ASCII digits) is also
accepted as Success, because Python's `\d` matches every Unicode decimal
digit. -/
theorem c6_counterexample :
    validate_logic_number ⟨some "bin", some "123456789012345\n", some "TF12345678"⟩
        = some (Outcome.success "bin processed with logic number 123456789012345\n and code TF12345678") ∧
    (process_data "bin" "123456789012345\n").length ≠ 15 ∧
    validate_logic_number
        ⟨some "bin", some "\u0660\u0661\u0662\u0663\u0664\u0665\u0666\u0667\u0668\u0669\u0660\u0661\u0662\u0663\u0664", some "TF12345678"⟩
      = some (Outcome.success ("bin processed with logic number "
          ++ "\u0660\u0661\u0662\u0663\u0664\u0665\u0666\u0667\u0668\u0669\u0660\u0661\u0662\u0663\u0664" ++ " and code TF12345678")) ∧
    ("\u0660\u0661\u0662\u0663\u0664\u0665\u0666\u0667\u0668\u0669\u0660\u0661\u0662\u0663\u0664" : String).data.all Char.isDigit = false :=
  ⟨by decide, by decide, by decide, by decide⟩

/-- C6 amended: for acquirers bin, getnetlac, safra, sipag with all three
fields non-empty, the outcome is Success exactly when the zero-padded
logic number is 15 Unicode decimal digits (Python `\d`: the ASCII digits
or any other category-Nd digit) optionally followed by one trailing
newline and the code is the literal uppercase "TF" followed by exactly 8
ASCII alphanumerics optionally followed by one trailing newline
(case-sensitive "TF"); otherwise it is the Failure outcome whose message
is the uppercased acquirer followed by " does not match with the pattern". -/
theorem c6_tf_group_amended (a l c : String)
    (ha : a = "bin" ∨ a = "getnetlac" ∨ a = "safra" ∨ a = "sipag")
    (hl : l ≠ "") (hc : c ≠ "") :
    (validate_logic_number ⟨some a, some l, some c⟩
        = some (Outcome.success (a ++ " processed with logic number " ++ process_data a l ++ " and code " ++ c))
      ↔ ((exactShape [] pyDigit 15 (process_data a l)
            ∨ exactShapeNl [] pyDigit 15 (process_data a l))
          ∧ (exactShape ['T', 'F'] Char.isAlphanum 8 c
            ∨ exactShapeNl ['T', 'F'] Char.isAlphanum 8 c)))
    ∧ (¬ ((exactShape [] pyDigit 15 (process_data a l)
            ∨ exactShapeNl [] pyDigit 15 (process_data a l))
          ∧ (exactShape ['T', 'F'] Char.isAlphanum 8 c
            ∨ exactShapeNl ['T', 'F'] Char.isAlphanum 8 c)) →
        validate_logic_number ⟨some a, some l, some c⟩
          = some (Outcome.failure (pyUpper a ++ " does not match with the pattern"))) := by
  have h1 : reMatch patD15 (process_data a l) = true ↔
      exactShape [] pyDigit 15 (process_data a l)
        ∨ exactShapeNl [] pyDigit 15 (process_data a l) :=
    reMatch_litCls [] pyDigit 15 (process_data a l)
  have h2 : reMatch patTFcode c = true ↔
      exactShape ['T', 'F'] Char.isAlphanum 8 c ∨ exactShapeNl ['T', 'F'] Char.isAlphanum 8 c :=
    reMatch_litCls ['T', 'F'] Char.isAlphanum 8 c
  rw [validate_tf_eval a l c ha hl hc]
  constructor
  · constructor
    · intro h
      by_cases hb : (reMatch patD15 (process_data a l) && reMatch patTFcode c) = true
      · rw [Bool.and_eq_true] at hb
        exact ⟨h1.mp hb.1, h2.mp hb.2⟩
      · rw [if_neg hb] at h
        simp at h
    · rintro ⟨hs1, hs2⟩
      rw [if_pos (by rw [Bool.and_eq_true]; exact ⟨h1.mpr hs1, h2.mpr hs2⟩)]
  · intro hn
    rw [if_neg (fun hb => hn
      (by rw [Bool.and_eq_true] at hb; exact ⟨h1.mp hb.1, h2.mp hb.2⟩))]

/-- C6 witness: the spec scenario for bin: logic number "123456" is
padded to "000000000123456" and code "TF12345678" matches, giving
Success. -/
theorem c6_witness :
    validate_logic_number ⟨some "bin", some "123456", some "TF12345678"⟩
      = some (Outcome.success "bin processed with logic number 000000000123456 and code TF12345678") :=
  ((c6_tf_group_amended "bin" "123456" "TF12345678" (Or.inl rfl) (by decide) (by decide)).1).mpr
    ⟨Or.inl ⟨(process_data "bin" "123456").data, rfl, by decide, by decide⟩,
      Or.inl ⟨("12345678" : String).data, by decide, by decide, by decide⟩⟩

/-- C7 counterexample: the claimed "exactly when" fails in two ways for
vero.  The logic number "041135700123300" followed by a newline (16
characters, hence not "04" plus 13 digits of total length 15) is accepted
as Success because of the Python `$` trailing-newline tolerance; and
"04" followed by 13 Arabic-Indic digits (not ASCII digits) is also
accepted as Success, because Python's `\d` matches every Unicode decimal
digit. -/
theorem c7_counterexample :
    validate_logic_number ⟨some "vero", some "041135700123300\n", some "00411357000"⟩
        = some (Outcome.success "vero processed with logic number 041135700123300\n and code 00411357000") ∧
    ("041135700123300\n" : String).length ≠ 15 ∧
    validate_logic_number
        ⟨some "vero", some "04\u0660\u0661\u0662\u0663\u0664\u0665\u0666\u0667\u0668\u0669\u0660\u0661\u0662", some "00411357000"⟩
      = some (Outcome.success ("vero processed with logic number "
          ++ "04\u0660\u0661\u0662\u0663\u0664\u0665\u0666\u0667\u0668\u0669\u0660\u0661\u0662" ++ " and code 00411357000")) ∧
    ("04\u0660\u0661\u0662\u0663\u0664\u0665\u0666\u0667\u0668\u0669\u0660\u0661\u0662" : String).data.all Char.isDigit = false :=
  ⟨by decide, by decide, by decide, by decide⟩

/-- C7 amended: for vero with all three fields non-empty, the outcome is
Success exactly when the logic number is "04" followed by 13 Unicode
decimal digits (Python `\d`) optionally followed by one trailing newline
and the code is 11 Unicode decimal digits optionally followed by one
trailing newline; the Success message names the acquirer, the logic
number and the code, and any other input yields the Failure
"VERO does not match with the pattern". -/
theorem c7_vero_amended (l c : String) (hl : l ≠ "") (hc : c ≠ "") :
    (validate_logic_number ⟨some "vero", some l, some c⟩
        = some (Outcome.success ("vero processed with logic number " ++ l ++ " and code " ++ c))
      ↔ ((exactShape ['0', '4'] pyDigit 13 l ∨ exactShapeNl ['0', '4'] pyDigit 13 l)
          ∧ (exactShape [] pyDigit 11 c ∨ exactShapeNl [] pyDigit 11 c)))
    ∧ (¬ ((exactShape ['0', '4'] pyDigit 13 l ∨ exactShapeNl ['0', '4'] pyDigit 13 l)
          ∧ (exactShape [] pyDigit 11 c ∨ exactShapeNl [] pyDigit 11 c)) →
        validate_logic_number ⟨some "vero", some l, some c⟩
          = some (Outcome.failure "VERO does not match with the pattern")) := by
  have h1 : reMatch patVero l = true ↔
      exactShape ['0', '4'] pyDigit 13 l ∨ exactShapeNl ['0', '4'] pyDigit 13 l :=
    reMatch_litCls ['0', '4'] pyDigit 13 l
  have h2 : reMatch patD11 c = true ↔
      exactShape [] pyDigit 11 c ∨ exactShapeNl [] pyDigit 11 c :=
    reMatch_litCls [] pyDigit 11 c
  rw [validate_vero_eval l c hl hc]
  constructor
  · constructor
    · intro h
      by_cases hb : (reMatch patVero l && reMatch patD11 c) = true
      · rw [Bool.and_eq_true] at hb
        exact ⟨h1.mp hb.1, h2.mp hb.2⟩
      · rw [if_neg hb] at h
        simp at h
    · rintro ⟨hs1, hs2⟩
      rw [if_pos (by rw [Bool.and_eq_true]; exact ⟨h1.mpr hs1, h2.mpr hs2⟩)]
  · intro hn
    rw [if_neg (fun hb => hn
      (by rw [Bool.and_eq_true] at hb; exact ⟨h1.mp hb.1, h2.mp hb.2⟩))]

/-- C7 witness: the spec scenario for vero yields Success and the message
names the acquirer, the logic number and the code. -/
theorem c7_witness :
    validate_logic_number ⟨some "vero", some "041135700123300", some "00411357000"⟩
      = some (Outcome.success "vero processed with logic number 041135700123300 and code 00411357000") :=
  ((c7_vero_amended "041135700123300" "00411357000" (by decide) (by decide)).1).mpr
    ⟨Or.inl ⟨("1135700123300" : String).data, by decide, by decide, by decide⟩,
      Or.inl ⟨("00411357000" : String).data, rfl, by decide, by decide⟩⟩

/-- C8 counterexample: the canonical engine uses the 7-trailing-digit
variant, tolerates a trailing newline, and accepts non-ASCII decimal
digits.  Concretely, "41234567" followed by a newline is accepted as
Success although it is neither "4" plus 7 ASCII digits nor "4" plus 8
ASCII digits; "412345678" ("4" plus 8 digits, the other variant the claim
offers) is rejected with Failure; and "4" followed by 7 Arabic-Indic
digits (not ASCII digits) is accepted as Success because Python's `\d`
matches every Unicode decimal digit.  Each refutes the claimed
"exactly when". -/
theorem c8_counterexample :
    validate_logic_number ⟨some "cielo", some "41234567\n", some "1"⟩
        = some (Outcome.success "cielo processed with logic number 41234567\n") ∧
    cieloClaimShape "41234567\n" = false ∧
    validate_logic_number ⟨some "cielo", some "412345678", some "1"⟩
        = some (Outcome.failure "CIELO does not match with the pattern") ∧
    cieloClaimShape "412345678" = true ∧
    validate_logic_number ⟨some "cielo", some "4\u0660\u0661\u0662\u0663\u0664\u0665\u0666", some "1"⟩
      = some (Outcome.success ("cielo processed with logic number "
          ++ "4\u0660\u0661\u0662\u0663\u0664\u0665\u0666")) ∧
    cieloClaimShape "4\u0660\u0661\u0662\u0663\u0664\u0665\u0666" = false :=
  ⟨by decide, by decide, by decide, by decide, by decide, by decide⟩

/-- C8 amended: for cielo with all three fields non-empty, the outcome is
Success exactly when the logic number is the digit "4" followed by
exactly 7 Unicode decimal digits (Python `\d`; total length 8 — the
canonical engine's variant; the duplicate engine in
src/validate_logic_number.py uses 8 trailing digits instead), optionally
followed by one trailing newline; any other input yields the Failure
"CIELO does not match with the pattern". -/
theorem c8_cielo_amended (l c : String) (hl : l ≠ "") (hc : c ≠ "") :
    (validate_logic_number ⟨some "cielo", some l, some c⟩
        = some (Outcome.success ("cielo processed with logic number " ++ l))
      ↔ (exactShape ['4'] pyDigit 7 l ∨ exactShapeNl ['4'] pyDigit 7 l))
    ∧ (¬ (exactShape ['4'] pyDigit 7 l ∨ exactShapeNl ['4'] pyDigit 7 l) →
        validate_logic_number ⟨some "cielo", some l, some c⟩
          = some (Outcome.failure "CIELO does not match with the pattern")) := by
  have h1 : reMatch patCielo l = true ↔
      exactShape ['4'] pyDigit 7 l ∨ exactShapeNl ['4'] pyDigit 7 l :=
    reMatch_litCls ['4'] pyDigit 7 l
  rw [validate_cielo_eval l c hl hc]
  constructor
  · constructor
    · intro h
      by_cases hb : reMatch patCielo l = true
      · exact h1.mp hb
      · rw [if_neg hb] at h
        simp at h
    · intro hs
      rw [if_pos (h1.mpr hs)]
  · intro hn
    rw [if_neg (fun hb => hn (h1.mp hb))]

/-- C8 witness: "41234567" (the digit 4 followed by 7 digits) is accepted
for cielo. -/
theorem c8_witness :
    validate_logic_number ⟨some "cielo", some "41234567", some "1"⟩
      = some (Outcome.success "cielo processed with logic number 41234567") :=
  ((c8_cielo_amended "41234567" "1" (by decide) (by decide)).1).mpr
    (Or.inl ⟨("1234567" : String).data, by decide, by decide, by decide⟩)

/-- C9 counterexample: the claim says any character beyond the rule's
exact shape — naming a trailing newline explicitly, with ASCII character
classes — is never accepted as Success, yet for adiq the 16-character
string "123456789012345" plus newline (not a pure ASCII digit string) is
accepted, because the Python `$` anchor matches just before a trailing
newline; and a string of 15 Arabic-Indic digits (no ASCII digit at all)
is also accepted, because Python's `\d` matches every Unicode decimal
digit. -/
theorem c9_counterexample :
    validate_logic_number ⟨some "adiq", some "123456789012345\n", some "x"⟩
        = some (Outcome.success "adiq processed with logic number 123456789012345\n") ∧
    ("123456789012345\n" : String).data.all Char.isDigit = false ∧
    validate_logic_number
        ⟨some "adiq", some "\u0660\u0661\u0662\u0663\u0664\u0665\u0666\u0667\u0668\u0669\u0660\u0661\u0662\u0663\u0664", some "x"⟩
      = some (Outcome.success ("adiq processed with logic number "
          ++ "\u0660\u0661\u0662\u0663\u0664\u0665\u0666\u0667\u0668\u0669\u0660\u0661\u0662\u0663\u0664")) ∧
    ("\u0660\u0661\u0662\u0663\u0664\u0665\u0666\u0667\u0668\u0669\u0660\u0661\u0662\u0663\u0664" : String).data.any Char.isDigit = false :=
  ⟨by decide, by decide, by decide, by decide⟩

/-- C9 amended: every pattern rule of the dispatch stage is anchored at
the start (no leading extra characters) and at the end up to exactly one
tolerated trailing newline: a string accepted by any of the seven rules
is the rule's exact shape, or that shape followed by a single final
newline, where the digit classes are Python's `\d` (any Unicode decimal
digit, not only ASCII) and the alphanumeric classes are ASCII; no other
extra character is ever accepted. -/
theorem c9_anchored_amended :
    (∀ s : String, reMatch patD15 s = true →
      exactShape [] pyDigit 15 s ∨ exactShapeNl [] pyDigit 15 s) ∧
    (∀ s : String, reMatch patTFcode s = true →
      exactShape ['T', 'F'] Char.isAlphanum 8 s ∨ exactShapeNl ['T', 'F'] Char.isAlphanum 8 s) ∧
    (∀ s : String, reMatch patCielo s = true →
      exactShape ['4'] pyDigit 7 s ∨ exactShapeNl ['4'] pyDigit 7 s) ∧
    (∀ s : String, reMatch patStone s = true →
      exactShape [] Char.isAlphanum 32 s ∨ exactShapeNl [] Char.isAlphanum 32 s) ∧
    (∀ s : String, reMatch patD9 s = true →
      exactShape [] pyDigit 9 s ∨ exactShapeNl [] pyDigit 9 s) ∧
    (∀ s : String, reMatch patVero s = true →
      exactShape ['0', '4'] pyDigit 13 s ∨ exactShapeNl ['0', '4'] pyDigit 13 s) ∧
    (∀ s : String, reMatch patD11 s = true →
      exactShape [] pyDigit 11 s ∨ exactShapeNl [] pyDigit 11 s) :=
  ⟨fun s h => (reMatch_litCls [] pyDigit 15 s).mp h,
   fun s h => (reMatch_litCls ['T', 'F'] Char.isAlphanum 8 s).mp h,
   fun s h => (reMatch_litCls ['4'] pyDigit 7 s).mp h,
   fun s h => (reMatch_litCls [] Char.isAlphanum 32 s).mp h,
   fun s h => (reMatch_litCls [] pyDigit 9 s).mp h,
   fun s h => (reMatch_litCls ['0', '4'] pyDigit 13 s).mp h,
   fun s h => (reMatch_litCls [] pyDigit 11 s).mp h⟩

/-- C9 witness: a plain 15-digit string matches the 15-digit rule and
falls in the exact-shape disjunct. -/
theorem c9_witness :
    exactShape [] pyDigit 15 "123456789012345"
      ∨ exactShapeNl [] pyDigit 15 "123456789012345" :=
  c9_anchored_amended.1 "123456789012345" (by decide)

/-- C10 counterexample: an input whose lowercased acquirer is "policard"
but whose logic number field is empty produces the presence Error, not
"unsupported adquirence type", because presence checks run first; the
claim as stated quantifies over every input with that acquirer. -/
theorem c10_counterexample :
    validate_logic_number ⟨some "policard", some "", some ""⟩
        = some (Outcome.error "Logical number not provided.") ∧
    Outcome.error "Logical number not provided." ≠ Outcome.error "unsupported adquirence type" :=
  ⟨by decide, by decide⟩

/-- C10 amended: for every input with non-empty logic number and code
whose lowercased acquirer is "policard" or "siscred", the engine returns
Error "unsupported adquirence type" (so their padding branches are never
reached); moreover every successful `handle_data` result — the only
values `validate_logic_number` ever passes to `process_data` — carries an
acquirer belonging to the 30-entry supported set, which contains neither
"policard" nor "siscred". -/
theorem c10_policard_siscred_unreachable :
    (∀ a l c : String, l ≠ "" → c ≠ "" →
      (pyLower a = "policard" ∨ pyLower a = "siscred") →
      validate_logic_number ⟨some a, some l, some c⟩
        = some (Outcome.error "unsupported adquirence type")) ∧
    (∀ (data : InputRecord) (a l c : String),
      handle_data data = HandleResult.ok a l c → valid_adquirences.contains a = true) ∧
    valid_adquirences.contains "policard" = false ∧
    valid_adquirences.contains "siscred" = false := by
  refine ⟨fun a l c hl hc hlow => ?_, fun data a l c h => ?_, by decide, by decide⟩
  · have ha : a ≠ "" := by
      intro he
      rcases hlow with h0 | h0 <;> (rw [he] at h0; exact absurd h0 (by decide))
    have hm : valid_adquirences.contains (pyLower a) = false := by
      rcases hlow with h0 | h0 <;> rw [h0] <;> decide
    apply validate_err
    unfold handle_data
    simp [pyFalsy, ha, hl, hc, hm]
    intro hmem
    have hel : valid_adquirences.contains (pyLower a) = true := List.elem_eq_true_of_mem hmem
    rw [hm] at hel
    exact absurd hel (by decide)
  · unfold handle_data at h
    by_cases h1 : pyFalsy data.adquirente = true
    · rw [if_pos h1] at h
      cases h
    · rw [if_neg h1] at h
      by_cases h2 : pyFalsy data.logico = true
      · rw [if_pos h2] at h
        cases h
      · rw [if_neg h2] at h
        by_cases h3 : pyFalsy data.codigo = true
        · rw [if_pos h3] at h
          cases h
        · rw [if_neg h3] at h
          by_cases h4 : valid_adquirences.contains (pyLower (data.adquirente.getD "")) = true
          · rw [if_pos h4] at h
            injection h with ha hb hc2
            rw [← ha]
            exact h4
          · rw [if_neg h4] at h
            cases h

/-- C10 witness: with non-empty fields, "policard" is rejected as
unsupported before any padding can happen. -/
theorem c10_witness :
    validate_logic_number ⟨some "policard", some "1", some "2"⟩
      = some (Outcome.error "unsupported adquirence type") :=
  c10_policard_siscred_unreachable.1 "policard" "1" "2" (by decide) (by decide) (Or.inl (by decide))
